import Mathlib

/-!
Shallow embedding of the session-authentication core of `ai-chatbot-svelte`:
token generation and hashing (`@oslojs/crypto` SHA-256, `@oslojs/encoding`
hex / base32), session creation, validation with rolling renewal, cookie
binding, and the request-authentication middleware, together with the sign-in
and sign-out route handlers.  Store operations are modelled over an explicit
list of session records; the `neverthrow` `safeTry`/`yield*` combinator is
modelled by `Except` short-circuiting.
-/

namespace AuthCore

/-! ## SHA-256 (FIPS 180-4), as used by `@oslojs/crypto` `sha256` -/

/-- Truncate to a 32-bit word, the JS-library word size. -/
def w32 (n : Nat) : Nat := n % 4294967296

/-- Right rotation of a 32-bit word by `n` places. -/
def rotr32 (n x : Nat) : Nat := x / 2 ^ n + x % 2 ^ n * 2 ^ (32 - n)

/-- Logical right shift of a 32-bit word. -/
def shr32 (n x : Nat) : Nat := x / 2 ^ n

def bigSigma0 (x : Nat) : Nat := rotr32 2 x ^^^ rotr32 13 x ^^^ rotr32 22 x

def bigSigma1 (x : Nat) : Nat := rotr32 6 x ^^^ rotr32 11 x ^^^ rotr32 25 x

def smallSigma0 (x : Nat) : Nat := rotr32 7 x ^^^ rotr32 18 x ^^^ shr32 3 x

def smallSigma1 (x : Nat) : Nat := rotr32 17 x ^^^ rotr32 19 x ^^^ shr32 10 x

def chFn (x y z : Nat) : Nat := (x &&& y) ^^^ ((x ^^^ 4294967295) &&& z)

def majFn (x y z : Nat) : Nat := (x &&& y) ^^^ (x &&& z) ^^^ (y &&& z)

/-- The 64 SHA-256 round constants, in decimal. -/
def sha256K : List Nat :=
  [1116352408, 1899447441, 3049323471, 3921009573, 961987163, 1508970993,
   2453635748, 2870763221, 3624381080, 310598401, 607225278, 1426881987,
   1925078388, 2162078206, 2614888103, 3248222580, 3835390401, 4022224774,
   264347078, 604807628, 770255983, 1249150122, 1555081692, 1996064986,
   2554220882, 2821834349, 2952996808, 3210313671, 3336571891, 3584528711,
   113926993, 338241895, 666307205, 773529912, 1294757372, 1396182291,
   1695183700, 1986661051, 2177026350, 2456956037, 2730485921, 2820302411,
   3259730800, 3345764771, 3516065817, 3600352804, 4094571909, 275423344,
   430227734, 506948616, 659060556, 883997877, 958139571, 1322822218,
   1537002063, 1747873779, 1955562222, 2024104815, 2227730452, 2361852424,
   2428436474, 2756734187, 3204031479, 3329325298]

/-- The eight 32-bit working variables of the compression function. -/
structure Hash8 where
  a : Nat
  b : Nat
  c : Nat
  d : Nat
  e : Nat
  f : Nat
  g : Nat
  hh : Nat
deriving DecidableEq, Repr

def sha256InitHash : Hash8 :=
  ⟨1779033703, 3144134277, 1013904242, 2773480762,
   1359893119, 2600822924, 528734635, 1541459225⟩

/-- Merkle–Damgård padding: append `0x80`, zero bytes, then the 64-bit
big-endian bit length, reaching a multiple of 64 bytes. -/
def sha256Pad (msg : List Nat) : List Nat :=
  let ml := 8 * msg.length
  let zeros := (64 - (msg.length + 9) % 64) % 64
  msg ++ [128] ++ List.replicate zeros 0 ++
    [ml / 2 ^ 56 % 256, ml / 2 ^ 48 % 256, ml / 2 ^ 40 % 256, ml / 2 ^ 32 % 256,
     ml / 2 ^ 24 % 256, ml / 2 ^ 16 % 256, ml / 2 ^ 8 % 256, ml % 256]

/-- Split a byte list into 64-byte blocks.  The fuel argument (one unit per
byte) only bounds the recursion so that it is structural and reduces in the
kernel; each step consumes at least one byte, so it never runs out. -/
def chunk64Go : Nat → List Nat → List (List Nat)
  | _, [] => []
  | 0, _ => []
  | fuel + 1, l => l.take 64 :: chunk64Go fuel (l.drop 64)

def chunk64 (l : List Nat) : List (List Nat) := chunk64Go l.length l

/-- The 16 big-endian words of one 64-byte block. -/
def blockWords (block : List Nat) : List Nat :=
  (List.range 16).map fun i =>
    block.getD (4 * i) 0 * 2 ^ 24 + block.getD (4 * i + 1) 0 * 2 ^ 16 +
      block.getD (4 * i + 2) 0 * 2 ^ 8 + block.getD (4 * i + 3) 0

/-- One extension step of the message schedule. -/
def scheduleStep (ws : List Nat) : List Nat :=
  let n := ws.length
  ws ++ [w32 (smallSigma1 (ws.getD (n - 2) 0) + ws.getD (n - 7) 0 +
    smallSigma0 (ws.getD (n - 15) 0) + ws.getD (n - 16) 0)]

/-- The 64-word message schedule of one block. -/
def msgSchedule (block : List Nat) : List Nat := scheduleStep^[48] (blockWords block)

/-- One round of the compression function; `kw` is `K[t] + W[t]` mod 2^32. -/
def sha256Round (st : Hash8) (kw : Nat) : Hash8 :=
  let t1 := w32 (st.hh + bigSigma1 st.e + chFn st.e st.f st.g + kw)
  let t2 := w32 (bigSigma0 st.a + majFn st.a st.b st.c)
  ⟨w32 (t1 + t2), st.a, st.b, st.c, w32 (st.d + t1), st.e, st.f, st.g⟩

/-- Compress one 64-byte block into the running hash state. -/
def sha256Compress (st : Hash8) (block : List Nat) : Hash8 :=
  let ws := msgSchedule block
  let fin := (List.zipWith (fun k w => w32 (k + w)) sha256K ws).foldl sha256Round st
  ⟨w32 (st.a + fin.a), w32 (st.b + fin.b), w32 (st.c + fin.c), w32 (st.d + fin.d),
   w32 (st.e + fin.e), w32 (st.f + fin.f), w32 (st.g + fin.g), w32 (st.hh + fin.hh)⟩

/-- The four big-endian bytes of a 32-bit word. -/
def wordBytesBE (x : Nat) : List Nat :=
  [x / 2 ^ 24 % 256, x / 2 ^ 16 % 256, x / 2 ^ 8 % 256, x % 256]

/-- SHA-256 digest (32 bytes) of a byte message. -/
def sha256 (msg : List Nat) : List Nat :=
  let fin := (chunk64 (sha256Pad msg)).foldl sha256Compress sha256InitHash
  wordBytesBE fin.a ++ wordBytesBE fin.b ++ wordBytesBE fin.c ++ wordBytesBE fin.d ++
    wordBytesBE fin.e ++ wordBytesBE fin.f ++ wordBytesBE fin.g ++ wordBytesBE fin.hh

/-! ## Encodings (`@oslojs/encoding`) -/

/-- The sixteen lowercase hex digits, `0-9` then `a-f`. -/
def hexAlphabet : List Char := (List.range 16).map Nat.digitChar

/-- `encodeHexLowerCase`: two lowercase hex digits per byte. -/
def encodeHexLowerCase (bytes : List Nat) : String :=
  String.mk (bytes.flatMap fun b => [hexAlphabet.getD (b / 16 % 16) '0', hexAlphabet.getD (b % 16) '0'])

/-- The RFC 4648 base32 alphabet, lowercased: `a-z` then `2-7`. -/
def base32Alphabet : List Char :=
  ((List.range 26).map fun i => Char.ofNat (97 + i)) ++
    ((List.range 6).map fun i => Char.ofNat (50 + i))

/-- The eight bits of a byte, most significant first. -/
def byteBits (b : Nat) : List Bool :=
  [b / 128 % 2 == 1, b / 64 % 2 == 1, b / 32 % 2 == 1, b / 16 % 2 == 1,
   b / 8 % 2 == 1, b / 4 % 2 == 1, b / 2 % 2 == 1, b % 2 == 1]

def bitsVal (bits : List Bool) : Nat :=
  bits.foldl (fun acc bit => 2 * acc + cond bit 1 0) 0

/-- One base32 output character: a 5-bit group, zero-padded on the right. -/
def base32Group (bits : List Bool) : Char :=
  base32Alphabet.getD (bitsVal (bits ++ List.replicate (5 - bits.length) false)) 'a'

def base32Chars : List Bool → List Char
  | [] => []
  | b1 :: b2 :: b3 :: b4 :: b5 :: rest => base32Group [b1, b2, b3, b4, b5] :: base32Chars rest
  | [b1] => [base32Group [b1]]
  | [b1, b2] => [base32Group [b1, b2]]
  | [b1, b2, b3] => [base32Group [b1, b2, b3]]
  | [b1, b2, b3, b4] => [base32Group [b1, b2, b3, b4]]

/-- `encodeBase32LowerCaseNoPadding`: RFC 4648 base32, lowercase, no `=` pad. -/
def encodeBase32LowerCaseNoPadding (bytes : List Nat) : String :=
  String.mk (base32Chars (bytes.flatMap byteBits))

/-- UTF-8 bytes of one code point. -/
def utf8EncodeChar (c : Nat) : List Nat :=
  if c < 128 then [c]
  else if c < 2048 then [192 + c / 64, 128 + c % 64]
  else if c < 65536 then [224 + c / 4096, 128 + c / 64 % 64, 128 + c % 64]
  else [240 + c / 262144, 128 + c / 4096 % 64, 128 + c / 64 % 64, 128 + c % 64]

/-- UTF-8 bytes of a string, as `new TextEncoder().encode` produces. -/
def utf8Encode (s : String) : List Nat := s.data.flatMap fun c => utf8EncodeChar c.toNat

/-! ## Data model

`Session` and `User` mirror the Drizzle tables `Session` (`id` = token hash,
`userId`, `expiresAt`) and `User` (`id` uuid, `email`, `password`).
Timestamps are milliseconds since epoch (`Date.now()`), as `Nat`.
-/

structure Session where
  id : String
  userId : String
  expiresAt : Nat
deriving DecidableEq, Repr

structure User where
  id : String
  email : String
  password : String
deriving DecidableEq, Repr

/-- `{ session, user }` as returned by `validateSessionToken`
(`SessionValidationResult`); both fields are `null` for an expired token. -/
structure SessionValidationResult where
  session : Option Session
  user : Option User
deriving DecidableEq, Repr

/-- The `DbError` side of the `neverthrow` results: a missing row for the
primary lookup, or an unavailable backend. -/
inductive DbError where
  | notFound
  | storeUnavailable
deriving DecidableEq, Repr

deriving instance DecidableEq for Except

/-- Fault-injection switches for the store operations a validation performs,
modelling the backend failing on the corresponding call. -/
structure StoreFaults where
  getFails : Bool
  deleteFails : Bool
  extendFails : Bool
deriving DecidableEq, Repr

def noFaults : StoreFaults := ⟨false, false, false⟩

/-- Store mutations issued by the lifecycle, recorded as a trace. -/
inductive StoreOp where
  | deleteOp (sessionId : String)
  | extendOp (sessionId : String)
deriving DecidableEq, Repr

/-- `1000 * 60 * 60 * 24 * 30` from `createSession` — 30 days in ms. -/
def SESSION_LIFETIME : Nat := 1000 * 60 * 60 * 24 * 30

/-- `ms('15d')` from `validateSessionToken` — 15 days in ms. -/
def RENEWAL_WINDOW : Nat := 1000 * 60 * 60 * 24 * 15

/-! ## Auth core (`src/lib/server/auth/index.ts`) -/

/-- `generateSessionToken`, as a function of the 32 random bytes drawn from
`crypto.getRandomValues`. -/
def generateSessionToken (randomBytes : List Nat) : String :=
  encodeBase32LowerCaseNoPadding randomBytes

/-- `encodeHexLowerCase(sha256(new TextEncoder().encode(token)))`, the
stored session id derived from a raw token. -/
def sessionIdOf (token : String) : String :=
  encodeHexLowerCase (sha256 (utf8Encode token))

/-- Modelled from the spec: `createSessionDb` is called by `createSession`
but its body is not in the sources; per §4.2 `put(session)` inserts or
replaces the record keyed by the session id, and fails with a store error
on infrastructure failure.  Returns the result and the updated store. -/
def createSessionDb (fault : Bool) (store : List Session) (s : Session) :
    Except DbError Unit × List Session :=
  if fault then (.error .storeUnavailable, store)
  else (.ok (), s :: store.filter fun t => t.id != s.id)

/-- `createSession(token, userId)`: hashes the token into the session id and
persists `{ id, userId, expiresAt: Date.now() + 30 days }`. -/
def createSession (fault : Bool) (now : Nat) (store : List Session)
    (token : String) (userId : String) : Except DbError Session × List Session :=
  let sessionId := sessionIdOf token
  let s : Session := ⟨sessionId, userId, now + SESSION_LIFETIME⟩
  match createSessionDb fault store s with
  | (.error e, store') => (.error e, store')
  | (.ok _, store') => (.ok s, store')

/-- Modelled from the spec: `getFullSession` is called by
`validateSessionToken` but its body is not in the sources; per §4.2/§6 it is
the point lookup of the session record joined with the owning user.  A
missing row yields an error result (the code destructures
`{ user, session }` from the success value, so absence cannot be a success),
and an unavailable backend yields a store error. -/
def getFullSession (fault : Bool) (users : List User) (store : List Session)
    (sessionId : String) : Except DbError (User × Session) :=
  if fault then .error .storeUnavailable
  else
    match store.find? fun s => s.id == sessionId with
    | none => .error .notFound
    | some s =>
      match users.find? fun u => u.id == s.userId with
      | none => .error .notFound
      | some u => .ok (u, s)

/-- Modelled from the spec: `deleteSession` removes the record by id;
deleting an absent record is not an error (§4.2). -/
def deleteSession (fault : Bool) (store : List Session) (sessionId : String) :
    Except DbError Unit × List Session :=
  if fault then (.error .storeUnavailable, store)
  else (.ok (), store.filter fun s => s.id != sessionId)

/-- Modelled from the spec: `extendSession` is called by
`validateSessionToken` but its body is not in the sources; per §4.3 the
renewal issues `updateExpiry(lookupId, now + SESSION_LIFETIME)`. -/
def extendSession (fault : Bool) (now : Nat) (store : List Session)
    (sessionId : String) : Except DbError Unit × List Session :=
  if fault then (.error .storeUnavailable, store)
  else
    (.ok (), store.map fun s =>
      if s.id == sessionId then { s with expiresAt := now + SESSION_LIFETIME } else s)

/-- `validateSessionToken(token)`: hash the token, fetch the joined record,
delete it when expired, extend it when inside the trailing 15-day window,
and return `{ session, user }`.  Each `yield*` on an `Err` short-circuits
the whole `safeTry` block with that error, so a failing store call is
surfaced, not swallowed.  Returns the `neverthrow` result, the store after
the call, and the trace of store mutations issued.  (`expiresAt - 15d` uses
truncated `Nat` subtraction; since `now ≥ 0`, the comparison agrees with the
JS signed subtraction.) -/
def validateSessionToken (now : Nat) (faults : StoreFaults) (users : List User)
    (store : List Session) (token : String) :
    Except DbError SessionValidationResult × List Session × List StoreOp :=
  let sessionId := sessionIdOf token
  match getFullSession faults.getFails users store sessionId with
  | .error e => (.error e, store, [])
  | .ok (user, session) =>
    if session.expiresAt ≤ now then
      match deleteSession faults.deleteFails store sessionId with
      | (.error e, store') => (.error e, store', [StoreOp.deleteOp sessionId])
      | (.ok _, store') => (.ok ⟨none, none⟩, store', [StoreOp.deleteOp sessionId])
    else
      if session.expiresAt - RENEWAL_WINDOW ≤ now then
        match extendSession faults.extendFails now store sessionId with
        | (.error e, store') => (.error e, store', [StoreOp.extendOp sessionId])
        | (.ok _, store') => (.ok ⟨some session, some user⟩, store', [StoreOp.extendOp sessionId])
      else
        (.ok ⟨some session, some user⟩, store, [])

/-- Modelled from the spec: sign-out deletes the session record (§4.3); the
body of `invalidateSession` is not in the sources. -/
def invalidateSession (fault : Bool) (store : List Session) (sessionId : String) :
    Except DbError Unit × List Session :=
  deleteSession fault store sessionId

/-! ## Cookie binder -/

/-- The options object passed to SvelteKit `cookies.set`; `none` means the
option was not given and the framework default applies. -/
structure CookieOptions where
  httpOnly : Bool
  sameSite : String
  path : String
  expires : Option Nat
  maxAge : Option Nat
  secure : Option Bool
deriving DecidableEq, Repr

/-- One `cookies.set(name, value, options)` call. -/
structure SetCookie where
  name : String
  value : String
  options : CookieOptions
deriving DecidableEq, Repr

/-- SvelteKit resolves an omitted `secure` option to `true`, except when the
app is served from localhost over plain http; an explicit option wins. -/
def resolvedSecure (localhostHttp : Bool) (o : CookieOptions) : Bool :=
  o.secure.getD (!localhostHttp)

/-- `setSessionTokenCookie(cookies, token, expiresAt)`. -/
def setSessionTokenCookie (token : String) (expiresAt : Nat) : SetCookie :=
  ⟨"session", token,
    { httpOnly := true, sameSite := "lax", path := "/",
      expires := some expiresAt, maxAge := none, secure := none }⟩

/-- `deleteSessionTokenCookie(cookies)`: overwrites the cookie with
`Max-Age=0` and the same flags. -/
def deleteSessionTokenCookie : SetCookie :=
  ⟨"session", "token",
    { httpOnly := true, sameSite := "lax", path := "/",
      expires := none, maxAge := some 0, secure := none }⟩

/-! ## Sign-in route (`src/routes/(chat)/api/auth/signin/+server.ts`) -/

/-- Modelled from the spec: `getAuthUser` lives in
`$lib/server/db/queries.js`, not in the sources; it is the authentication
lookup of a user row by email, an error result when no row matches. -/
def getAuthUser (fault : Bool) (users : List User) (email : String) :
    Except DbError User :=
  if fault then .error .storeUnavailable
  else
    match users.find? fun u => u.email == email with
    | none => .error .notFound
    | some u => .ok u

/-- Outcome of `schema.parse(body)` for the zod schema
`{ email: email(), password: min(8) }`: the parsed fields, a `ZodError`, or
any other exception thrown while reading the body. -/
inductive ParseOutcome where
  | parsed (email password : String)
  | zodError
  | otherError
deriving DecidableEq, Repr

/-- The `Response.json` payloads the sign-in endpoint produces. -/
structure SigninResponse where
  status : Nat
  message : Option String
  success : Bool
deriving DecidableEq, Repr

/-- Observable outcome of one sign-in request: the response, the cookie
written (if any), and the session store afterwards. -/
structure SigninOutcome where
  response : SigninResponse
  cookieSet : Option SetCookie
  store : List Session
deriving DecidableEq, Repr

/-- The sign-in `POST` handler.  `compare` stands for `bcrypt-ts`'s
password comparison, `token` for the value drawn by
`generateSessionToken()`, `userFault` / `dbFault` for the two database
calls failing. -/
def signinPOST (compare : String → String → Bool) (now : Nat)
    (userFault dbFault : Bool) (users : List User) (store : List Session)
    (token : String) (body : ParseOutcome) : SigninOutcome :=
  match body with
  | .zodError => ⟨⟨400, some "Invalid input", false⟩, none, store⟩
  | .otherError => ⟨⟨500, some "Internal server error", false⟩, none, store⟩
  | .parsed email password =>
    match getAuthUser userFault users email with
    | .error _ => ⟨⟨400, some "Invalid credentials", false⟩, none, store⟩
    | .ok user =>
      if compare password user.password then
        match createSession dbFault now store token user.id with
        | (.error _, store') =>
          ⟨⟨500, some "Failed to create session", false⟩, none, store'⟩
        | (.ok s, store') =>
          ⟨⟨200, none, true⟩, some (setSessionTokenCookie token s.expiresAt), store'⟩
      else ⟨⟨400, some "Invalid credentials", false⟩, none, store⟩

/-! ## Sign-out route (`src/routes/(chat)/api/auth/signout/+server.ts`) -/

/-- The sign-out `POST` handler: invalidate the locals session if present,
then always clear the cookie.  Returns the store afterwards and the cookie
written. -/
def signoutPOST (fault : Bool) (store : List Session)
    (localsSession : Option Session) : List Session × SetCookie :=
  match localsSession with
  | some s => ((invalidateSession fault store s.id).2, deleteSessionTokenCookie)
  | none => (store, deleteSessionTokenCookie)

/-! ## Request-authentication middleware (`src/hooks.server.ts` `handle`) -/

/-- `event.locals` after the middleware ran. -/
structure Locals where
  user : Option User
  session : Option Session
deriving DecidableEq, Repr

/-- Observable outcome of the `handle` hook: the populated locals, the
cookie written (if any), whether `resolve(event)` was reached, and the
store afterwards. -/
structure HandleOutcome where
  locals : Locals
  cookieSet : Option SetCookie
  resolved : Bool
  store : List Session
deriving DecidableEq, Repr

/-- The `handle` hook: no token means anonymous locals; otherwise the
validation result populates the locals when it is `Ok` with a session, and
every other outcome (an `Err` as well as an `Ok` with `session: null`)
yields anonymous locals plus `deleteSessionTokenCookie`.  `resolve(event)`
is called on every path. -/
def handle (now : Nat) (faults : StoreFaults) (users : List User)
    (store : List Session) (cookieToken : Option String) : HandleOutcome :=
  match cookieToken with
  | none => ⟨⟨none, none⟩, none, true, store⟩
  | some token =>
    match validateSessionToken now faults users store token with
    | (.ok r, store', _) =>
      match r.session with
      | some s => ⟨⟨r.user, some s⟩, none, true, store'⟩
      | none => ⟨⟨none, none⟩, some deleteSessionTokenCookie, true, store'⟩
    | (.error _, store', _) =>
      ⟨⟨none, none⟩, some deleteSessionTokenCookie, true, store'⟩

/-! ## Sequences of validations, for the monotonicity invariant -/

/-- One validation call: its time, fault injection, and presented token. -/
structure ValidateCall where
  now : Nat
  faults : StoreFaults
  token : String

/-- The store after a sequence of `validateSessionToken` calls. -/
def runValidations (users : List User) (store : List Session) :
    List ValidateCall → List Session
  | [] => store
  | c :: cs =>
    runValidations users (validateSessionToken c.now c.faults users store c.token).2.1 cs

/-- The data-model invariant that session ids are unique in the store. -/
def idsNodup (store : List Session) : Prop :=
  (store.map fun s => s.id).Nodup

instance (store : List Session) : Decidable (idsNodup store) := by
  unfold idsNodup; infer_instance

/-- A lowercase hex digit, `0-9a-f`. -/
def isHexDigitChar (c : Char) : Bool :=
  (48 ≤ c.toNat && c.toNat ≤ 57) || (97 ≤ c.toNat && c.toNat ≤ 102)

/-- The canonical textual form of a Postgres `uuid` value
(`defaultRandom()` on the `User.id` column): 36 characters in the
8-4-4-4-12 hyphenated hex layout. -/
def isUuidString (s : String) : Bool :=
  s.length == 36 &&
  ((List.range 36).all fun i =>
    if i == 8 || i == 13 || i == 18 || i == 23 then s.data.getD i ' ' == '-'
    else isHexDigitChar (s.data.getD i ' '))

/-! ## Concrete fixtures used by the witnesses -/

def demoUser : User := ⟨"00000000-0000-0000-0000-000000000000", "a@b.c", "hash"⟩

def demoNow : Nat := 2000000000000

/-- A session record for the token `"tok"` that expired 5 ms before `demoNow`. -/
def demoExpired : Session := ⟨sessionIdOf "tok", demoUser.id, demoNow - 5⟩

/-- A session record for `"tok"` expiring 1 s after `demoNow`: inside the
renewal window. -/
def demoWindow : Session := ⟨sessionIdOf "tok", demoUser.id, demoNow + 1000⟩

/-- A session record for `"tok"` with a full lifetime left: outside the
renewal window. -/
def demoFresh : Session := ⟨sessionIdOf "tok", demoUser.id, demoNow + SESSION_LIFETIME⟩

/-! ## Helper lemmas -/

theorem sha256_length (msg : List Nat) : (sha256 msg).length = 32 := by
  simp [sha256, wordBytesBE]

theorem encodeHexLowerCase_length (bytes : List Nat) :
    (encodeHexLowerCase bytes).length = 2 * bytes.length := by
  show (bytes.flatMap fun b =>
    [hexAlphabet.getD (b / 16 % 16) '0', hexAlphabet.getD (b % 16) '0']).length = 2 * bytes.length
  induction bytes with
  | nil => simp
  | cons b bs ih =>
    simp only [List.flatMap_cons, List.length_append, List.length_cons, List.length_nil, ih]
    omega

theorem base32Chars_length : ∀ bits : List Bool,
    (base32Chars bits).length = (bits.length + 4) / 5
  | [] => by simp [base32Chars]
  | [b1] => by simp [base32Chars]
  | [b1, b2] => by simp [base32Chars]
  | [b1, b2, b3] => by simp [base32Chars]
  | [b1, b2, b3, b4] => by simp [base32Chars]
  | b1 :: b2 :: b3 :: b4 :: b5 :: rest => by
    have ih := base32Chars_length rest
    simp only [base32Chars, List.length_cons, ih]
    omega

theorem byteBits_flatMap_length (bs : List Nat) : (bs.flatMap byteBits).length = 8 * bs.length := by
  induction bs with
  | nil => simp
  | cons b bs ih =>
    simp only [List.flatMap_cons, List.length_append, List.length_cons, List.length_nil,
      ih, byteBits]
    omega

theorem encodeBase32_length (bytes : List Nat) :
    (encodeBase32LowerCaseNoPadding bytes).length = (8 * bytes.length + 4) / 5 := by
  show (base32Chars (bytes.flatMap byteBits)).length = (8 * bytes.length + 4) / 5
  rw [base32Chars_length, byteBits_flatMap_length]

theorem getFullSession_ok {fault : Bool} {users : List User} {store : List Session}
    {sid : String} {u : User} {sess : Session}
    (hg : getFullSession fault users store sid = .ok (u, sess)) :
    store.find? (fun s => s.id == sid) = some sess ∧
      users.find? (fun x => x.id == sess.userId) = some u := by
  unfold getFullSession at hg
  cases fault with
  | true => simp at hg
  | false =>
    simp only [Bool.false_eq_true, if_false] at hg
    cases hfind : store.find? (fun s => s.id == sid) with
    | none => rw [hfind] at hg; simp at hg
    | some s =>
      rw [hfind] at hg
      cases hu : users.find? (fun x => x.id == s.userId) with
      | none => simp only [hu] at hg; simp at hg
      | some x =>
        simp only [hu, Except.ok.injEq, Prod.mk.injEq] at hg
        obtain ⟨h1, h2⟩ := hg
        subst h1
        subst h2
        exact ⟨rfl, hu⟩

/-- After replacing the expiry of every record with a given id, `find?` by
that id returns the previously found record with the new expiry. -/
theorem find?_set_expiry (store : List Session) (sid : String) (e' : Nat)
    (sess : Session)
    (hfind : store.find? (fun s => s.id == sid) = some sess) :
    (store.map fun s =>
        if s.id == sid then { s with expiresAt := e' } else s).find?
      (fun s => s.id == sid) = some { sess with expiresAt := e' } := by
  induction store with
  | nil => simp at hfind
  | cons a l ih =>
    rw [List.find?_cons] at hfind
    rw [List.map_cons, List.find?_cons]
    cases ha : (a.id == sid) with
    | true =>
      rw [ha] at hfind
      simp only [Option.some.injEq] at hfind
      subst hfind
      simp [ha]
    | false =>
      rw [ha] at hfind
      simp only [ha, if_false, Bool.false_eq_true, cond_false] at *
      exact ih hfind

/-- Every record in the store after one `validateSessionToken` call descends
from a record of the same id in the store before it, with an expiry that is
no smaller. -/
theorem validate_store_back (now : Nat) (faults : StoreFaults) (users : List User)
    (store : List Session) (token : String) (s' : Session)
    (hmem : s' ∈ (validateSessionToken now faults users store token).2.1) :
    ∃ t ∈ store, t.id = s'.id ∧ t.expiresAt ≤ s'.expiresAt := by
  simp only [validateSessionToken] at hmem
  cases hg : getFullSession faults.getFails users store (sessionIdOf token) with
  | error e =>
    simp only [hg] at hmem
    exact ⟨s', hmem, rfl, le_refl _⟩
  | ok p =>
    obtain ⟨u, sess⟩ := p
    simp only [hg] at hmem
    obtain ⟨hfind, -⟩ := getFullSession_ok hg
    split at hmem
    · -- expired branch: delete
      cases hd : faults.deleteFails with
      | true =>
        simp only [deleteSession, hd, if_true] at hmem
        exact ⟨s', hmem, rfl, le_refl _⟩
      | false =>
        simp only [deleteSession, hd, Bool.false_eq_true, if_false] at hmem
        exact ⟨s', List.mem_of_mem_filter hmem, rfl, le_refl _⟩
    · split at hmem
      · -- renewal branch: extend
        rename_i hnexp hwin
        cases hx : faults.extendFails with
        | true =>
          simp only [extendSession, hx, if_true] at hmem
          exact ⟨s', hmem, rfl, le_refl _⟩
        | false =>
          simp only [extendSession, hx, Bool.false_eq_true, if_false] at hmem
          obtain ⟨t, hmt, hft⟩ := List.exists_of_mem_map hmem
          by_cases hid : (t.id == sessionIdOf token) = true
          · rw [if_pos hid] at hft
            refine ⟨sess, List.mem_of_find?_eq_some hfind, ?_, ?_⟩
            · have hp := List.find?_some hfind
              simp only at hp
              have h1 : sess.id = sessionIdOf token := eq_of_beq hp
              have h2 : t.id = sessionIdOf token := eq_of_beq hid
              rw [h1, ← hft]
              exact h2.symm
            · have hle : sess.expiresAt ≤ now + RENEWAL_WINDOW := by omega
              have hs' : s'.expiresAt = now + SESSION_LIFETIME := by rw [← hft]
              rw [hs']
              unfold SESSION_LIFETIME
              unfold RENEWAL_WINDOW at hle
              omega
          · rw [if_neg hid] at hft
            exact ⟨t, hmt, by rw [hft], by rw [hft]⟩
      · exact ⟨s', hmem, rfl, le_refl _⟩

/-- `validate_store_back`, lifted to a sequence of validations. -/
theorem runValidations_back (users : List User) (calls : List ValidateCall)
    (store : List Session) (s' : Session)
    (hmem : s' ∈ runValidations users store calls) :
    ∃ t ∈ store, t.id = s'.id ∧ t.expiresAt ≤ s'.expiresAt := by
  induction calls generalizing store with
  | nil => exact ⟨s', hmem, rfl, le_refl _⟩
  | cons c cs ih =>
    obtain ⟨t1, ht1, hid1, hle1⟩ := ih _ hmem
    obtain ⟨t0, ht0, hid0, hle0⟩ := validate_store_back c.now c.faults users store c.token t1 ht1
    exact ⟨t0, ht0, hid0.trans hid1, hle0.trans hle1⟩

/-! ## Claims -/

/-- C2: for a token whose session record exists and satisfies
`expiresAt - RENEWAL_WINDOW ≤ now < expiresAt` (with `RENEWAL_WINDOW` =
15 days), `validateSessionToken` returns the session's identity and issues
exactly one renewal, after which the stored record's `expiresAt` is
`now + SESSION_LIFETIME` (30 days), computed from `now`, not from the old
`expiresAt`. -/
theorem C2_renewal_in_window (now : Nat) (users : List User) (store : List Session)
    (token : String) (sess : Session) (u : User)
    (hfind : store.find? (fun s => s.id == sessionIdOf token) = some sess)
    (huser : users.find? (fun x => x.id == sess.userId) = some u)
    (hlo : sess.expiresAt - RENEWAL_WINDOW ≤ now) (hhi : now < sess.expiresAt) :
    RENEWAL_WINDOW = 1000 * 60 * 60 * 24 * 15 ∧
    SESSION_LIFETIME = 1000 * 60 * 60 * 24 * 30 ∧
    (validateSessionToken now noFaults users store token).1 =
      .ok ⟨some sess, some u⟩ ∧
    (validateSessionToken now noFaults users store token).2.2 =
      [StoreOp.extendOp (sessionIdOf token)] ∧
    (validateSessionToken now noFaults users store token).2.1.find?
        (fun s => s.id == sessionIdOf token) =
      some { sess with expiresAt := now + SESSION_LIFETIME } := by
  have hres : validateSessionToken now noFaults users store token =
      (.ok ⟨some sess, some u⟩,
       store.map fun s =>
         if s.id == sessionIdOf token then { s with expiresAt := now + SESSION_LIFETIME }
         else s,
       [StoreOp.extendOp (sessionIdOf token)]) := by
    simp only [validateSessionToken, getFullSession, noFaults, Bool.false_eq_true,
      if_false, hfind, huser, extendSession]
    rw [if_neg (by omega), if_pos hlo]
  refine ⟨rfl, rfl, by rw [hres], by rw [hres], ?_⟩
  rw [hres]
  exact find?_set_expiry store (sessionIdOf token) (now + SESSION_LIFETIME) sess hfind

/-- C2 witness: a concrete session 1 s from expiry is renewed to
`demoNow + SESSION_LIFETIME`. -/
theorem C2_renewal_in_window_witness :
    (validateSessionToken demoNow noFaults [demoUser] [demoWindow] "tok").1 =
      .ok ⟨some demoWindow, some demoUser⟩ ∧
    (validateSessionToken demoNow noFaults [demoUser] [demoWindow] "tok").2.2 =
      [StoreOp.extendOp (sessionIdOf "tok")] ∧
    (validateSessionToken demoNow noFaults [demoUser] [demoWindow] "tok").2.1.find?
        (fun s => s.id == sessionIdOf "tok") =
      some { demoWindow with expiresAt := demoNow + SESSION_LIFETIME } := by
  have h := C2_renewal_in_window demoNow [demoUser] [demoWindow] "tok" demoWindow demoUser
    (by decide) (by decide) (by decide) (by decide)
  exact ⟨h.2.2.1, h.2.2.2.1, h.2.2.2.2⟩

/-- C3: for a token whose session record exists and satisfies
`now ≥ expiresAt`, `validateSessionToken` returns Anonymous (both fields
null) and issues exactly one delete of that record.  The mutation trace is
exactly `[deleteOp]` — no renewal op — even though `now` also satisfies the
renewal condition, because the expiry check runs first. -/
theorem C3_expired_delete (now : Nat) (users : List User) (store : List Session)
    (token : String) (sess : Session) (u : User)
    (hfind : store.find? (fun s => s.id == sessionIdOf token) = some sess)
    (huser : users.find? (fun x => x.id == sess.userId) = some u)
    (hexp : sess.expiresAt ≤ now) :
    validateSessionToken now noFaults users store token =
      (.ok ⟨none, none⟩,
       store.filter fun s => s.id != sessionIdOf token,
       [StoreOp.deleteOp (sessionIdOf token)]) := by
  simp only [validateSessionToken, getFullSession, noFaults, Bool.false_eq_true,
    if_false, hfind, huser, deleteSession]
  rw [if_pos hexp]

/-- C3 witness: a concrete expired session is deleted and the result is
Anonymous. -/
theorem C3_expired_delete_witness :
    validateSessionToken demoNow noFaults [demoUser] [demoExpired] "tok" =
      (.ok ⟨none, none⟩, [], [StoreOp.deleteOp (sessionIdOf "tok")]) := by
  have h := C3_expired_delete demoNow [demoUser] [demoExpired] "tok" demoExpired demoUser
    (by decide) (by decide) (by decide)
  rw [h]
  decide

/-- C5: for a token whose session record exists and satisfies
`now < expiresAt - RENEWAL_WINDOW`, `validateSessionToken` returns the
identity and performs no store mutation: the op trace is empty and the
store is returned unchanged. -/
theorem C5_valid_no_mutation (now : Nat) (users : List User) (store : List Session)
    (token : String) (sess : Session) (u : User)
    (hfind : store.find? (fun s => s.id == sessionIdOf token) = some sess)
    (huser : users.find? (fun x => x.id == sess.userId) = some u)
    (hfresh : now < sess.expiresAt - RENEWAL_WINDOW) :
    validateSessionToken now noFaults users store token =
      (.ok ⟨some sess, some u⟩, store, []) := by
  simp only [validateSessionToken, getFullSession, noFaults, Bool.false_eq_true,
    if_false, hfind, huser]
  rw [if_neg (by omega), if_neg (by omega)]

/-- C5 witness: a concrete fresh session validates with no mutation. -/
theorem C5_valid_no_mutation_witness :
    validateSessionToken demoNow noFaults [demoUser] [demoFresh] "tok" =
      (.ok ⟨some demoFresh, some demoUser⟩, [demoFresh], []) :=
  C5_valid_no_mutation demoNow [demoUser] [demoFresh] "tok" demoFresh demoUser
    (by decide) (by decide) (by decide)

/-- C6: under the unique-session-id invariant, a session record that
survives any sequence of validation/renewal operations never has its
`expiresAt` moved backward: the surviving record's expiry is at least the
original record's. -/
theorem C6_expiresAt_monotone (users : List User) (store : List Session)
    (calls : List ValidateCall) (s s' : Session)
    (hnodup : idsNodup store) (hs : s ∈ store)
    (hs' : s' ∈ runValidations users store calls) (hid : s'.id = s.id) :
    s.expiresAt ≤ s'.expiresAt := by
  obtain ⟨t, ht, htid, hle⟩ := runValidations_back users calls store s' hs'
  have hts : t = s :=
    List.inj_on_of_nodup_map hnodup ht hs (by rw [htid, hid])
  rw [← hts]
  exact hle

/-- C6 witness: one concrete validation call on a singleton store. -/
theorem C6_expiresAt_monotone_witness :
    idsNodup [demoFresh] ∧
    demoFresh.expiresAt ≤ demoFresh.expiresAt :=
  ⟨by decide,
   C6_expiresAt_monotone [demoUser] [demoFresh] [⟨demoNow, noFaults, "tok"⟩]
     demoFresh demoFresh (by decide) (by decide) (by decide) rfl⟩

/-- C7: a successful login at `t0` creates a session with
`expiresAt = t0 + SESSION_LIFETIME` (30 days), responds with success and a
cookie carrying that expiry, and an immediate validation at `t0 + 1 s`
returns the same identity with no renewal and no store mutation. -/
theorem C7_login_then_validate (compare : String → String → Bool) (t0 : Nat)
    (users : List User) (store : List Session) (token email password : String)
    (u : User)
    (hemail : users.find? (fun x => x.email == email) = some u)
    (hpw : compare password u.password = true)
    (hid : users.find? (fun x => x.id == u.id) = some u) :
    signinPOST compare t0 false false users store token (.parsed email password) =
      ⟨⟨200, none, true⟩,
       some (setSessionTokenCookie token (t0 + SESSION_LIFETIME)),
       ⟨sessionIdOf token, u.id, t0 + SESSION_LIFETIME⟩ ::
         store.filter fun t => t.id != sessionIdOf token⟩ ∧
    validateSessionToken (t0 + 1000) noFaults users
        (⟨sessionIdOf token, u.id, t0 + SESSION_LIFETIME⟩ ::
          store.filter fun t => t.id != sessionIdOf token) token =
      (.ok ⟨some ⟨sessionIdOf token, u.id, t0 + SESSION_LIFETIME⟩, some u⟩,
       ⟨sessionIdOf token, u.id, t0 + SESSION_LIFETIME⟩ ::
         store.filter fun t => t.id != sessionIdOf token,
       []) := by
  constructor
  · simp only [signinPOST, getAuthUser, Bool.false_eq_true, if_false, hemail, hpw,
      if_true, createSession, createSessionDb]
  · simp only [validateSessionToken, getFullSession, noFaults, Bool.false_eq_true,
      if_false, List.find?_cons, beq_self_eq_true, if_true, hid]
    rw [if_neg (by unfold SESSION_LIFETIME; omega),
      if_neg (by unfold SESSION_LIFETIME RENEWAL_WINDOW; omega)]

/-- C7 witness: concrete login for the demo user followed by validation one
second later. -/
theorem C7_login_then_validate_witness :
    signinPOST (fun _ _ => true) demoNow false false [demoUser] [] "tok"
        (.parsed "a@b.c" "pw123456") =
      ⟨⟨200, none, true⟩,
       some (setSessionTokenCookie "tok" (demoNow + SESSION_LIFETIME)),
       [⟨sessionIdOf "tok", demoUser.id, demoNow + SESSION_LIFETIME⟩]⟩ ∧
    validateSessionToken (demoNow + 1000) noFaults [demoUser]
        [⟨sessionIdOf "tok", demoUser.id, demoNow + SESSION_LIFETIME⟩] "tok" =
      (.ok ⟨some ⟨sessionIdOf "tok", demoUser.id, demoNow + SESSION_LIFETIME⟩,
            some demoUser⟩,
       [⟨sessionIdOf "tok", demoUser.id, demoNow + SESSION_LIFETIME⟩],
       []) := by
  have h := C7_login_then_validate (fun _ _ => true) demoNow [demoUser] [] "tok"
    "a@b.c" "pw123456" demoUser (by decide) rfl (by decide)
  exact ⟨h.1, h.2⟩

/-- C8: the persisted session record never contains the raw token: the
stored key is the hex-encoded SHA-256 of the token (64 hex characters),
which cannot equal the 52-character base32 token, and the only other
persisted fields are the uuid `userId` (36 characters, hence also distinct
from the token) and the numeric `expiresAt`. -/
theorem C8_raw_token_never_persisted (randomBytes : List Nat) (userId : String)
    (now : Nat) (store : List Session)
    (hlen : randomBytes.length = 32) (huuid : isUuidString userId = true) :
    (createSession false now store (generateSessionToken randomBytes) userId).1 =
      .ok ⟨sessionIdOf (generateSessionToken randomBytes), userId,
           now + SESSION_LIFETIME⟩ ∧
    sessionIdOf (generateSessionToken randomBytes) ≠ generateSessionToken randomBytes ∧
    userId ≠ generateSessionToken randomBytes := by
  have htok : (generateSessionToken randomBytes).length = 52 := by
    show (encodeBase32LowerCaseNoPadding randomBytes).length = 52
    rw [encodeBase32_length, hlen]
  refine ⟨rfl, ?_, ?_⟩
  · intro h
    have hidlen : (sessionIdOf (generateSessionToken randomBytes)).length = 64 := by
      show (encodeHexLowerCase (sha256 (utf8Encode _))).length = 64
      rw [encodeHexLowerCase_length, sha256_length]
    rw [h, htok] at hidlen
    exact absurd hidlen (by decide)
  · intro h
    have hu36 : userId.length = 36 := by
      unfold isUuidString at huuid
      have hb := (Bool.and_eq_true _ _).mp huuid |>.1
      simp only [beq_iff_eq] at hb
      exact hb
    rw [h, htok] at hu36
    exact absurd hu36 (by decide)

/-- C1 counterexample: with the expired demo session and a failing delete,
`validateSessionToken` returns the store error, not the Anonymous result;
with the in-window demo session and a failing renewal write, it returns the
store error, not the identity.  The `yield*` on the failed call
short-circuits the `safeTry` block, so neither failure is merely logged. -/
theorem C1_counterexample :
    (validateSessionToken demoNow ⟨false, true, false⟩ [demoUser] [demoExpired] "tok").1 =
      .error .storeUnavailable ∧
    (validateSessionToken demoNow ⟨false, true, false⟩ [demoUser] [demoExpired] "tok").1 ≠
      .ok ⟨none, none⟩ ∧
    (validateSessionToken demoNow ⟨false, false, true⟩ [demoUser] [demoWindow] "tok").1 =
      .error .storeUnavailable ∧
    (validateSessionToken demoNow ⟨false, false, true⟩ [demoUser] [demoWindow] "tok").1 ≠
      .ok ⟨some demoWindow, some demoUser⟩ := by
  refine ⟨by decide, ?_, by decide, ?_⟩ <;> decide

/-- C1 (amended): when the session record is found and the expired-path
delete fails, `validateSessionToken` surfaces the store error instead of
returning Anonymous; when the record is inside the renewal window and the
renewal write fails, it surfaces the store error instead of returning the
identity.  In both cases the `handle` middleware translates the error into
anonymous locals plus a cleared cookie, so the requester is degraded to
Anonymous rather than shown the failure. -/
theorem C1_store_write_failures_surface (now : Nat) (users : List User)
    (store : List Session) (token : String) (sess : Session) (u : User)
    (hfind : store.find? (fun s => s.id == sessionIdOf token) = some sess)
    (huser : users.find? (fun x => x.id == sess.userId) = some u) :
    (sess.expiresAt ≤ now →
      validateSessionToken now ⟨false, true, false⟩ users store token =
        (.error .storeUnavailable, store, [StoreOp.deleteOp (sessionIdOf token)]) ∧
      handle now ⟨false, true, false⟩ users store (some token) =
        ⟨⟨none, none⟩, some deleteSessionTokenCookie, true, store⟩) ∧
    (sess.expiresAt - RENEWAL_WINDOW ≤ now → now < sess.expiresAt →
      validateSessionToken now ⟨false, false, true⟩ users store token =
        (.error .storeUnavailable, store, [StoreOp.extendOp (sessionIdOf token)]) ∧
      handle now ⟨false, false, true⟩ users store (some token) =
        ⟨⟨none, none⟩, some deleteSessionTokenCookie, true, store⟩) := by
  constructor
  · intro hexp
    have hval : validateSessionToken now ⟨false, true, false⟩ users store token =
        (.error .storeUnavailable, store, [StoreOp.deleteOp (sessionIdOf token)]) := by
      simp only [validateSessionToken, getFullSession, Bool.false_eq_true, if_false,
        hfind, huser, deleteSession, if_true]
      rw [if_pos hexp]
    exact ⟨hval, by simp [handle, hval]⟩
  · intro hlo hhi
    have hval : validateSessionToken now ⟨false, false, true⟩ users store token =
        (.error .storeUnavailable, store, [StoreOp.extendOp (sessionIdOf token)]) := by
      simp only [validateSessionToken, getFullSession, Bool.false_eq_true, if_false,
        hfind, huser, extendSession, if_true]
      rw [if_neg (by omega), if_pos hlo]
    exact ⟨hval, by simp [handle, hval]⟩

/-- C1 witness: the expired-path conclusion at the concrete expired
session with a failing delete. -/
theorem C1_store_write_failures_surface_witness :
    validateSessionToken demoNow ⟨false, true, false⟩ [demoUser] [demoExpired] "tok" =
      (.error .storeUnavailable, [demoExpired], [StoreOp.deleteOp (sessionIdOf "tok")]) ∧
    handle demoNow ⟨false, true, false⟩ [demoUser] [demoExpired] (some "tok") =
      ⟨⟨none, none⟩, some deleteSessionTokenCookie, true, [demoExpired]⟩ :=
  (C1_store_write_failures_surface demoNow [demoUser] [demoExpired] "tok"
    demoExpired demoUser (by decide) (by decide)).1 (by decide)

/-- C4: the login cookie is named `session`, carries the raw token, and has
`HttpOnly`, `SameSite=Lax`, `Path=/`, the framework-default `Secure` in
production contexts, and its expiry is the created session's `expiresAt`
(`now + SESSION_LIFETIME`); the sign-out clearing cookie sets `Max-Age=0`
with identical attribute flags. -/
theorem C4_cookie_attributes (token : String) (expiresAt : Nat) (fault : Bool)
    (store : List Session) (ls : Option Session)
    (compare : String → String → Bool) (now : Nat) (users : List User)
    (store2 : List Session) (email password : String) (u : User)
    (hemail : users.find? (fun x => x.email == email) = some u)
    (hpw : compare password u.password = true) :
    (setSessionTokenCookie token expiresAt).name = "session" ∧
    (setSessionTokenCookie token expiresAt).value = token ∧
    (setSessionTokenCookie token expiresAt).options.httpOnly = true ∧
    (setSessionTokenCookie token expiresAt).options.sameSite = "lax" ∧
    (setSessionTokenCookie token expiresAt).options.path = "/" ∧
    resolvedSecure false (setSessionTokenCookie token expiresAt).options = true ∧
    (setSessionTokenCookie token expiresAt).options.expires = some expiresAt ∧
    (signinPOST compare now false false users store2 token
        (.parsed email password)).cookieSet =
      some (setSessionTokenCookie token (now + SESSION_LIFETIME)) ∧
    deleteSessionTokenCookie.options.maxAge = some 0 ∧
    deleteSessionTokenCookie.options.httpOnly =
      (setSessionTokenCookie token expiresAt).options.httpOnly ∧
    deleteSessionTokenCookie.options.sameSite =
      (setSessionTokenCookie token expiresAt).options.sameSite ∧
    deleteSessionTokenCookie.options.path =
      (setSessionTokenCookie token expiresAt).options.path ∧
    resolvedSecure false deleteSessionTokenCookie.options =
      resolvedSecure false (setSessionTokenCookie token expiresAt).options ∧
    (signoutPOST fault store ls).2 = deleteSessionTokenCookie := by
  refine ⟨rfl, rfl, rfl, rfl, rfl, rfl, rfl, ?_, rfl, rfl, rfl, rfl, rfl, ?_⟩
  · simp only [signinPOST, getAuthUser, Bool.false_eq_true, if_false, hemail, hpw,
      if_true, createSession, createSessionDb]
  · cases ls <;> rfl

/-- C4 witness: concrete cookies for the demo login and sign-out. -/
theorem C4_cookie_attributes_witness :
    (setSessionTokenCookie "tok" demoNow).name = "session" ∧
    (setSessionTokenCookie "tok" demoNow).value = "tok" ∧
    (signinPOST (fun _ _ => true) demoNow false false [demoUser] [] "tok"
        (.parsed "a@b.c" "pw123456")).cookieSet =
      some (setSessionTokenCookie "tok" (demoNow + SESSION_LIFETIME)) ∧
    (signoutPOST false [] none).2 = deleteSessionTokenCookie := by
  have h := C4_cookie_attributes "tok" demoNow false [] none (fun _ _ => true)
    demoNow [demoUser] [] "a@b.c" "pw123456" demoUser (by decide) rfl
  exact ⟨h.1, h.2.1, h.2.2.2.2.2.2.2.1, h.2.2.2.2.2.2.2.2.2.2.2.2.2⟩

/-- C9: when `validateSessionToken` fails with a store error, the `handle`
middleware fails open: it populates anonymous locals, clears the session
cookie, still resolves the request, and leaves the store as validation
left it. -/
theorem C9_handle_fails_open (now : Nat) (faults : StoreFaults) (users : List User)
    (store : List Session) (token : String) (e : DbError)
    (herr : (validateSessionToken now faults users store token).1 = .error e) :
    handle now faults users store (some token) =
      ⟨⟨none, none⟩, some deleteSessionTokenCookie, true,
       (validateSessionToken now faults users store token).2.1⟩ := by
  rcases hv : validateSessionToken now faults users store token with ⟨res, st2, ops⟩
  rw [hv] at herr
  simp only at herr
  subst herr
  simp [handle, hv]

/-- C9 witness: an unavailable backend on the primary lookup degrades the
request to Anonymous with a cleared cookie. -/
theorem C9_handle_fails_open_witness :
    handle demoNow ⟨true, false, false⟩ [] [] (some "tok") =
      ⟨⟨none, none⟩, some deleteSessionTokenCookie, true,
       (validateSessionToken demoNow ⟨true, false, false⟩ [] [] "tok").2.1⟩ :=
  C9_handle_fails_open demoNow ⟨true, false, false⟩ [] [] "tok" .storeUnavailable
    (by decide)

/-- C10: the sign-in responses for an unknown email and for a known email
with a wrong password are the identical 400 "Invalid credentials" outcome;
in both cases no cookie is set and the session store is unchanged. -/
theorem C10_signin_indistinguishable (compare : String → String → Bool) (now : Nat)
    (users : List User) (store : List Session) (token : String)
    (email1 password1 email2 password2 : String) (u : User)
    (hunknown : users.find? (fun x => x.email == email1) = none)
    (hknown : users.find? (fun x => x.email == email2) = some u)
    (hwrong : compare password2 u.password = false) :
    signinPOST compare now false false users store token (.parsed email1 password1) =
      ⟨⟨400, some "Invalid credentials", false⟩, none, store⟩ ∧
    signinPOST compare now false false users store token (.parsed email2 password2) =
      ⟨⟨400, some "Invalid credentials", false⟩, none, store⟩ := by
  constructor
  · simp only [signinPOST, getAuthUser, Bool.false_eq_true, if_false, hunknown]
  · simp only [signinPOST, getAuthUser, Bool.false_eq_true, if_false, hknown, hwrong]

/-- C10 witness: unknown email `x@y.z` and the demo user's email with a
rejected password produce the same concrete outcome. -/
theorem C10_signin_indistinguishable_witness :
    signinPOST (fun _ _ => false) demoNow false false [demoUser] [] "tok"
        (.parsed "x@y.z" "pw123456") =
      ⟨⟨400, some "Invalid credentials", false⟩, none, []⟩ ∧
    signinPOST (fun _ _ => false) demoNow false false [demoUser] [] "tok"
        (.parsed "a@b.c" "pw123456") =
      ⟨⟨400, some "Invalid credentials", false⟩, none, []⟩ :=
  C10_signin_indistinguishable (fun _ _ => false) demoNow [demoUser] [] "tok"
    "x@y.z" "pw123456" "a@b.c" "pw123456" demoUser (by decide) (by decide) rfl

/-- C8 witness: the all-zero random block and the all-zero uuid. -/
theorem C8_raw_token_never_persisted_witness :
    (createSession false demoNow []
        (generateSessionToken (List.replicate 32 0)) demoUser.id).1 =
      .ok ⟨sessionIdOf (generateSessionToken (List.replicate 32 0)), demoUser.id,
           demoNow + SESSION_LIFETIME⟩ ∧
    sessionIdOf (generateSessionToken (List.replicate 32 0)) ≠
      generateSessionToken (List.replicate 32 0) ∧
    demoUser.id ≠ generateSessionToken (List.replicate 32 0) :=
  C8_raw_token_never_persisted (List.replicate 32 0) demoUser.id demoNow []
    (by decide) (by decide)

end AuthCore
